import Mathlib

/-!
Shallow embedding of `connect-surreal` (src/src/main.ts), an express-session
store backed by SurrealDB.  The store is a class `SurrealDBStore` with fields
`db`, `tableName`, `lastConnectionAttempt`, `hasConnected`, `isConnected`.
Pure state is modelled by `StoreState`; the calls the store makes to its
external collaborators (the SurrealDB client and the optional logger) are
recorded as traces of `DbAction` and `LogEvent` values; the outcome of each
asynchronous database request is an explicit `Except String _` parameter, so
every promise chain in the source becomes a total Lean function of that
outcome.
-/

/-- A value of the session-payload type is treated abstractly; operations are
parametric in `V`. -/
abbrev SessionId := String

/-- Record identifiers are structured pairs `(table, id)` — the source builds
`new RecordId(this.tableName, sessionId)`, never an interpolated string. -/
abbrev RecId := String × String

/-- The optional logger of `SurrealDBStoreOptions.logger`: which sinks are
present (`error?`, `info?`, `debug?` are each optional in the source type). -/
structure Logger where
  hasError : Bool
  hasInfo : Bool
  hasDebug : Bool
deriving DecidableEq

/-- `SurrealDBStoreOptions` (main.ts lines 5–70), restricted to the fields the
claims touch.  `tableName` is declared required in TypeScript but the
constructor still applies `?? 'user_session'`, so it is an `Option` here.
`customGetter`/`customSetter` receive the database handle and session id (and
payload, for the setter); they are modelled as functions on the association
list standing for the database, returning the new database and the promise
outcome. -/
structure SurrealDBStoreOptions (V : Type) where
  url : String
  tableName : Option String
  autoSweepExpired : Bool := false
  autoSweepIntervalMs : Option Nat := none
  logger : Option Logger := none
  customGetter : Option (List (RecId × V) → SessionId → Except String (Option V)) := none
  customSetter : Option (List (RecId × V) → SessionId → V → (List (RecId × V) × Except String V)) := none

/-- The mutable per-instance fields of `SurrealDBStore`
(main.ts lines 74–81). -/
structure StoreState where
  tableName : String
  lastConnectionAttempt : Nat
  hasConnected : Bool
  isConnected : Bool
deriving DecidableEq

/-- Calls the store issues against the SurrealDB client.  `ensureReady` is the
readiness gate named by the specification (§4.1 `ensureReady()`); it is part of
the action alphabet so that its absence from a trace is statable — the source
never issues it. -/
inductive DbAction (V : Type) where
  | connect (url : String)
  | query (q : String) (tableParam : Option String)
  | select (rid : RecId)
  | upsertContent (rid : RecId) (content : V)
  | deleteRecord (rid : RecId)
  | selectTable (t : String)
  | customGet (sid : SessionId)
  | customSet (sid : SessionId)
  | ensureReady
deriving DecidableEq

/-- A call made through the optional-chained logger (`options.logger?.info?.(…)`
etc.).  The trace records the call sites that fire; delivery further depends on
the logger being configured with that sink. -/
inductive LogEvent where
  | info (m : String)
  | error (m : String)
  | debug (m : String)
deriving DecidableEq

/-- Errors the specification says construction can raise.  The constructor in
the source (main.ts lines 83–117) contains no validation and no throw path, so
the faithful translation below never returns `.error`. -/
inductive ConfigError where
  | invalidTableName (t : String)
deriving DecidableEq

/-- Field initialisation performed by the constructor (main.ts lines 83–88):
`tableName = options.tableName ?? 'user_session'`, `lastConnectionAttempt = 0`,
`hasConnected = false`, `isConnected = false`. -/
def initState {V : Type} (opts : SurrealDBStoreOptions V) : StoreState :=
  { tableName := opts.tableName.getD "user_session"
    lastConnectionAttempt := 0
    hasConnected := false
    isConnected := false }

/-- `SurrealDBStore.constructor` (main.ts lines 83–117) as a fallible
computation: a TypeScript constructor may throw, so the result type is
`Except ConfigError _`; the body has no validation and no throw, so every
input yields `.ok`. -/
def construct {V : Type} (opts : SurrealDBStoreOptions V) :
    Except ConfigError StoreState :=
  .ok (initState opts)

/-- The query text issued by the schema bootstrap (main.ts line 95), with the
table name interpolated. -/
def schemaQuery (tableName : String) : String :=
  "DEFINE TABLE OVERWRITE " ++ tableName

/-- The database calls the constructor initiates, in order: `this._connect()`
(main.ts line 90, which performs `db.connect(url, …)`) and, once it resolves —
it always resolves, since `_connect` catches its own failure — the schema
bootstrap query (main.ts line 95). -/
def constructorActions {V : Type} (opts : SurrealDBStoreOptions V) :
    List (DbAction V) :=
  [DbAction.connect opts.url,
   DbAction.query (schemaQuery ((initState opts).tableName)) none]

/-- The sweeper registration in the constructor (main.ts lines 104–116):
`setInterval` is registered only when `autoSweepExpired`, with period
`autoSweepIntervalMs ?? 10 * 60 * 1000`. -/
def sweepSchedule {V : Type} (opts : SurrealDBStoreOptions V) : Option Nat :=
  if opts.autoSweepExpired then some (opts.autoSweepIntervalMs.getD (10 * 60 * 1000))
  else none

/-- `SurrealDBStore._connect` (main.ts lines 122–141) given the outcome of the
underlying `db.connect` call.  The source logs, awaits
`db.connect(url, opts).then(ok branch).catch(err branch)` — so a transport
failure is consumed by the `catch` and never rejects `_connect` — and then
UNCONDITIONALLY runs `this.isConnected = true; this.hasConnected = true`
(lines 139–140).  The merge that builds `connectionOpts` from
`useOpts`/`signinOpts`/`connectionOpts` (lines 124–129) only shapes the payload
handed to `db.connect` and is not modelled.  The result is the new state and
the trace of logger calls; totality of the function is the embedded form of
"the failure does not propagate". -/
def connectRun (s : StoreState) (outcome : Except String Unit) :
    StoreState × List LogEvent :=
  match outcome with
  | .ok _ =>
      ({ s with hasConnected := true, isConnected := true },
       [LogEvent.info "SurrealDBStore: Connecting to SurrealDB...",
        LogEvent.info "SurrealDBStore: Connected to SurrealDB."])
  | .error e =>
      ({ s with hasConnected := true, isConnected := true },
       [LogEvent.info "SurrealDBStore: Connecting to SurrealDB...",
        LogEvent.error ("SurrealDBStore: Failed to connect to SurrealDB! " ++ e)])

/-- The state transitions the source can perform on a `StoreState`.
`connectAttempt` is the `_connect` body; `constructorResolved` is the `.then`
continuation of the constructor (main.ts line 92, `this.hasConnected = true`);
`dataOp` covers get/set/touch/destroy/length/all/clear and `sweepTick`, none of
which assign any of the four fields. -/
inductive StoreStep where
  | connectAttempt (outcome : Except String Unit)
  | constructorResolved
  | dataOp

/-- The effect of each source transition on the store fields. -/
def stepState (s : StoreState) : StoreStep → StoreState
  | .connectAttempt o => (connectRun s o).1
  | .constructorResolved => { s with hasConnected := true }
  | .dataOp => s

/-- An argument passed to a completion callback.  `null` is the literal `null`
the source passes in the error slot on success; the value constructors record
which kind of success payload was passed. -/
inductive CbArg (V : Type) where
  | err (e : String)
  | null
  | record (v : Option V)
  | written (v : V)
  | count (n : Nat)
  | rows (rs : List V)
deriving DecidableEq

/-- One callback invocation is the list of arguments it was called with; an
operation run produces the list of invocations it performs on its callback. -/
abbrev Invocation (V : Type) := List (CbArg V)

/-- `get` callback behaviour (main.ts lines 152–160): on resolution
`cb(null, res)`, on rejection `cb(err)`. -/
def getCb {V : Type} (outcome : Except String (Option V)) : List (Invocation V) :=
  match outcome with
  | .ok res => [[CbArg.null, CbArg.record res]]
  | .error e => [[CbArg.err e]]

/-- `set` callback behaviour (main.ts lines 172–180): on resolution
`cb(null, res)`, on rejection `cb(err)`. -/
def setCb {V : Type} (outcome : Except String V) : List (Invocation V) :=
  match outcome with
  | .ok res => [[CbArg.null, CbArg.written res]]
  | .error e => [[CbArg.err e]]

/-- `destroy` callback behaviour (main.ts lines 190–198): `cb(null)` on
resolution, `cb(err)` on rejection. -/
def destroyCb {V : Type} (outcome : Except String Unit) : List (Invocation V) :=
  match outcome with
  | .ok _ => [[CbArg.null]]
  | .error e => [[CbArg.err e]]

/-- `length` callback behaviour (main.ts lines 202–211): on resolution
`cb(result[0].count)` — the count is passed as the FIRST (and only) argument,
the slot that carries the error on rejection (`cb(err)`). -/
def lengthCb {V : Type} (outcome : Except String Nat) : List (Invocation V) :=
  match outcome with
  | .ok n => [[CbArg.count n]]
  | .error e => [[CbArg.err e]]

/-- `all` callback behaviour (main.ts lines 215–223): `cb(result)` on
resolution (result in the first slot), `cb(err)` on rejection. -/
def allCb {V : Type} (outcome : Except String (List V)) : List (Invocation V) :=
  match outcome with
  | .ok rs => [[CbArg.rows rs]]
  | .error e => [[CbArg.err e]]

/-- `clear` callback behaviour (main.ts lines 227–235): `cb(null)` on
resolution, `cb(err)` on rejection. -/
def clearCb {V : Type} (outcome : Except String Unit) : List (Invocation V) :=
  match outcome with
  | .ok _ => [[CbArg.null]]
  | .error e => [[CbArg.err e]]

/-- One run of a session-repository operation together with the outcome of its
underlying database request (the resolution or rejection of the promise the
operation awaits).  `touch` carries the same outcome type as `set` because the
source delegates (main.ts line 186). -/
inductive OpRun (V : Type) where
  | get (o : Except String (Option V))
  | set (o : Except String V)
  | touch (o : Except String V)
  | destroy (o : Except String Unit)
  | length (o : Except String Nat)
  | all (o : Except String (List V))
  | clear (o : Except String Unit)

/-- The callback invocations a run performs.  Every operation body is a promise
chain ending in `.catch(err => cb(err))`, so the function is total: no outcome
escapes the callback boundary as an exception. -/
def runCb {V : Type} : OpRun V → List (Invocation V)
  | .get o => getCb o
  | .set o => setCb o
  | .touch o => setCb o
  | .destroy o => destroyCb o
  | .length o => lengthCb o
  | .all o => allCb o
  | .clear o => clearCb o

/-- Whether a callback argument is an error value. -/
def isErrArg {V : Type} : CbArg V → Bool
  | .err _ => true
  | _ => false

/-- Whether a callback argument is a success payload (record, written value,
count or row set — `null` is neither). -/
def isSuccessArg {V : Type} : CbArg V → Bool
  | .record _ => true
  | .written _ => true
  | .count _ => true
  | .rows _ => true
  | _ => false

/-- Whether an action is a readiness check against the connection manager
(the `ensureReady`/connect gate of spec §4.1). -/
def isReadinessCheck {V : Type} : DbAction V → Bool
  | .ensureReady => true
  | .connect _ => true
  | _ => false

/-- An invocation of a session-repository operation (operation plus its
arguments, before any database outcome is known). -/
inductive OpCall (V : Type) where
  | get (sid : SessionId)
  | set (sid : SessionId) (sess : V)
  | touch (sid : SessionId) (sess : V)
  | destroy (sid : SessionId)
  | length
  | all
  | clear

/-- The database requests each operation issues, from the operation bodies
(main.ts lines 146–236): each body immediately builds its single database
request — `select`/custom getter for `get`, `upsert(...).content(...)`/custom
setter for `set` and (by delegation) `touch`, `delete` for `destroy`, the
aggregate count query for `length`, a table select for `all`, a table delete
for `clear`.  No body consults `isConnected`, calls `connect`, or performs any
readiness check first. -/
def opCallActions {V : Type} (opts : SurrealDBStoreOptions V) (tableName : String) :
    OpCall V → List (DbAction V)
  | .get sid =>
      match opts.customGetter with
      | some _ => [DbAction.customGet sid]
      | none => [DbAction.select (tableName, sid)]
  | .set sid sess =>
      match opts.customSetter with
      | some _ => [DbAction.customSet sid]
      | none => [DbAction.upsertContent (tableName, sid) sess]
  | .touch sid sess =>
      match opts.customSetter with
      | some _ => [DbAction.customSet sid]
      | none => [DbAction.upsertContent (tableName, sid) sess]
  | .destroy sid => [DbAction.deleteRecord (tableName, sid)]
  | .length => [DbAction.query "SELECT count() FROM type::table($table) GROUP ALL" (some tableName)]
  | .all => [DbAction.selectTable tableName]
  | .clear => [DbAction.query "DELETE type::table($table)" (some tableName)]

/-- The backing database table, modelled as an association list from structured
record id to stored payload (one entry per record; `dbUpsert` preserves this). -/
abbrev Db (V : Type) := List (RecId × V)

/-- The SurrealDB client `select(recordId)` call: the stored content of the
record, or `none` when absent. -/
def dbSelect {V : Type} : Db V → RecId → Option V
  | [], _ => none
  | (r, v) :: rest, rid => if r = rid then some v else dbSelect rest rid

/-- The SurrealDB client `upsert(recordId).content(data)` call:
create-or-replace of the record's content. -/
def dbUpsert {V : Type} : Db V → RecId → V → Db V
  | [], rid, v => [(rid, v)]
  | (r, w) :: rest, rid, v =>
      if r = rid then (rid, v) :: rest else (r, w) :: dbUpsert rest rid v

/-- `SurrealDBStore.set` (main.ts lines 166–181) against the database model, on
the default path or through the custom setter: the new database state and the
callback invocations.  On the default path the upsert resolves with the written
content and the callback receives `cb(null, res)`. -/
def setRun {V : Type} (opts : SurrealDBStoreOptions V) (tableName : String)
    (db : Db V) (sid : SessionId) (sess : V) : Db V × List (Invocation V) :=
  match opts.customSetter with
  | some f =>
      let (db2, out) := f db sid sess
      (db2, setCb out)
  | none => (dbUpsert db (tableName, sid) sess, setCb (.ok sess))

/-- `SurrealDBStore.get` (main.ts lines 146–161) against the database model:
the callback invocations, with the default select resolving to the stored
record (or `none`). -/
def getRun {V : Type} (opts : SurrealDBStoreOptions V) (tableName : String)
    (db : Db V) (sid : SessionId) : List (Invocation V) :=
  match opts.customGetter with
  | some f => getCb (f db sid)
  | none => getCb (.ok (dbSelect db (tableName, sid)))

/-- `SurrealDBStore.touch` (main.ts lines 183–187): the body is exactly
`this.set(sid, session, cb)`. -/
def touchRun {V : Type} (opts : SurrealDBStoreOptions V) (tableName : String)
    (db : Db V) (sid : SessionId) (sess : V) : Db V × List (Invocation V) :=
  setRun opts tableName db sid sess

/-- A stored record as the sweeper sees it: the session payload plus the
optional top-level `expires` field (a timestamp), absent when the record has
none. -/
structure SweepRecord (V : Type) where
  data : V
  expires : Option Nat
deriving DecidableEq

/-- The effect on the table of the bulk delete
`DELETE type::table($table) WHERE expires < time::now()` issued by one sweeper
tick (main.ts lines 107–109).  The clause matches exactly the records whose
`expires` field is a timestamp earlier than `now`; a record with a future or
absent `expires` is kept.  The delete-where semantics of the backing database
are external to this repository and are taken from the specification's
outbound contract (§4.3, §6). -/
def sweepDelete {V : Type} (db : List (SessionId × SweepRecord V)) (now : Nat) :
    List (SessionId × SweepRecord V) :=
  db.filter fun r =>
    match r.2.expires with
    | some t => decide (now ≤ t)
    | none => true

/-- The database requests one sweeper tick issues (main.ts lines 107–109):
exactly one parameterized bulk-delete query bound to the configured table. -/
def sweepTickActions {V : Type} (tableName : String) : List (DbAction V) :=
  [DbAction.query "DELETE type::table($table) WHERE expires < time::now()" (some tableName)]

/-- The logger calls one sweeper tick performs, by the outcome of its query
(main.ts lines 110–114): an info line on success, an error line on failure. -/
def sweepTickLogs (tableName : String) (outcome : Except String Unit) : List LogEvent :=
  match outcome with
  | .ok _ =>
      [LogEvent.info ("SurrealDBStore: Swept expired sessions from table " ++ tableName)]
  | .error e =>
      [LogEvent.error ("SurrealDBStore: Failed to sweep expired sessions: " ++ e)]

/-- The actions of a whole schedule of sweeper ticks: `setInterval` keeps
firing regardless of earlier outcomes, so each listed outcome contributes its
tick's requests independently. -/
def sweepScheduleActions {V : Type} (tableName : String)
    (outcomes : List (Except String Unit)) : List (DbAction V) :=
  (outcomes.map fun _ => sweepTickActions (V := V) tableName).flatten

/-- The reconnect cool-down window of spec §4.1 and the glossary: 5 seconds,
fixed. -/
def THROTTLE_WINDOW_MS : Nat := 5000

/-- The result of a reconnect trigger: the updated state, whether a new connect
call was performed, and the throttle log line when the trigger was skipped
inside the cool-down window (distinguishing the never-connected case from the
dropped-connection case). -/
structure ReconnectResult where
  state : StoreState
  attempted : Bool
  throttleLog : Option String
deriving DecidableEq

/-- Modelled from the spec: the source declares `lastConnectionAttempt`
(main.ts line 76) but the repository code implementing the throttled
`reconnect()` of spec §4.1 is not under src/.  Faithful to the spec's words:
a no-op if already connected; if the cool-down window has not elapsed since
`lastConnectionAttempt`, log a throttle message (distinguishing "never
connected" from "connection dropped") and return without attempting;
otherwise record the attempt timestamp, re-run the connect sequence (its
outcome is the parameter), and on success set `isConnected = true`. -/
def reconnect (s : StoreState) (now : Nat) (outcome : Except String Unit) :
    ReconnectResult :=
  if s.isConnected then ⟨s, false, none⟩
  else if now - s.lastConnectionAttempt < THROTTLE_WINDOW_MS then
    ⟨s, false,
     some (if s.hasConnected then "reconnect throttled: connection dropped"
           else "reconnect throttled: never connected")⟩
  else
    match outcome with
    | .ok _ =>
        ⟨{ s with lastConnectionAttempt := now, isConnected := true,
                  hasConnected := true }, true, none⟩
    | .error _ =>
        ⟨{ s with lastConnectionAttempt := now }, true, none⟩

/-- Modelled from the spec: the `onDisconnected()` handler of spec §4.1 is not
under src/.  It flips `isConnected = false` and immediately attempts
reconnection (subject to the throttle). -/
def onDisconnected (s : StoreState) (now : Nat) (outcome : Except String Unit) :
    ReconnectResult :=
  reconnect { s with isConnected := false } now outcome

/-- A concrete configuration with the default behaviour: no custom hooks, no
sweeper, no logger. -/
def optsPlain : SurrealDBStoreOptions Nat :=
  { url := "http://db.example", tableName := some "user_session" }

/-- A concrete configuration whose table name `a;b` contains the
non-alphanumeric character `;`. -/
def optsBad : SurrealDBStoreOptions Nat :=
  { url := "http://db.example", tableName := some "a;b" }

/-- A concrete configuration with the sweeper enabled and no interval
configured. -/
def optsSweep : SurrealDBStoreOptions Nat :=
  { url := "http://db.example", tableName := some "user_session",
    autoSweepExpired := true }

/-- Selecting a record right after upserting it yields the upserted content. -/
theorem dbSelect_dbUpsert_self {V : Type} (db : Db V) (rid : RecId) (v : V) :
    dbSelect (dbUpsert db rid v) rid = some v := by
  induction db with
  | nil => simp [dbUpsert, dbSelect]
  | cons hd tl ih =>
      obtain ⟨r, w⟩ := hd
      by_cases h : r = rid
      · simp [dbUpsert, dbSelect, h]
      · simp [dbUpsert, dbSelect, h, ih]

/-- Upserting the same content twice at the same record id equals upserting it
once. -/
theorem dbUpsert_idem {V : Type} (db : Db V) (rid : RecId) (v : V) :
    dbUpsert (dbUpsert db rid v) rid v = dbUpsert db rid v := by
  induction db with
  | nil => simp [dbUpsert]
  | cons hd tl ih =>
      obtain ⟨r, w⟩ := hd
      by_cases h : r = rid
      · simp [dbUpsert, h]
      · simp [dbUpsert, h, ih]

/-- A reconnect trigger that performs a connect call records its timestamp in
`lastConnectionAttempt`. -/
theorem reconnect_attempted_last (s : StoreState) (now : Nat)
    (o : Except String Unit) (h : (reconnect s now o).attempted = true) :
    (reconnect s now o).state.lastConnectionAttempt = now := by
  unfold reconnect at *
  split at h
  · simp at h
  · split at h
    · simp at h
    · rename_i hc ht
      cases o <;> simp [if_neg hc, if_neg ht]

/-- C1, counterexample: the claim says a configuration whose table name has a
non-alphanumeric character (here `a;b`, containing `;`) makes construction
fail with a configuration error and prevents any connection attempt.  On the
source, construction succeeds (returns the initialised state, no
`ConfigError`) and the connect call is in the constructor trace. -/
theorem c1_counterexample :
    ((';' ∈ "a;b".toList) ∧ (';'.isAlphanum = false)) ∧
    construct optsBad = Except.ok (initState optsBad) ∧
    DbAction.connect "http://db.example" ∈ constructorActions optsBad := by
  refine ⟨⟨by decide, by decide⟩, rfl, ?_⟩
  simp [constructorActions, optsBad]

/-- C1, amended: construction performs no table-name validation — for every
configuration, whatever the table name, construction succeeds (no
configuration error is possible) and a connection attempt is made. -/
theorem c1_construction_never_validates (V : Type) (opts : SurrealDBStoreOptions V) :
    (∃ s : StoreState, construct opts = Except.ok s
        ∧ s.tableName = opts.tableName.getD "user_session") ∧
    DbAction.connect opts.url ∈ constructorActions opts := by
  exact ⟨⟨initState opts, rfl, rfl⟩, by simp [constructorActions]⟩

/-- C2, counterexample: the claim says a failed transport connect leaves
`isConnected = false`.  Running `_connect` from the initial state with a
failing connect outcome yields `isConnected = true` (main.ts line 139 runs
unconditionally after the handled promise). -/
theorem c2_counterexample :
    (connectRun
        { tableName := "user_session", lastConnectionAttempt := 0,
          hasConnected := false, isConnected := false }
        (Except.error "connect ECONNREFUSED")).1.isConnected = true := rfl

/-- C2, amended: when the underlying connect fails, the failure is caught
(`connectRun` is total — nothing propagates) and an error is logged through
the optional-logger call site, but both `isConnected` and `hasConnected` are
then unconditionally set to `true`; no reconnection retry exists for
subsequent operations. -/
theorem c2_connect_failure_caught_flags_set (s : StoreState) (e : String) :
    (connectRun s (Except.error e)).1.isConnected = true ∧
    (connectRun s (Except.error e)).1.hasConnected = true ∧
    LogEvent.error ("SurrealDBStore: Failed to connect to SurrealDB! " ++ e)
      ∈ (connectRun s (Except.error e)).2 := by
  refine ⟨rfl, rfl, ?_⟩
  simp [connectRun]

/-- C3: reconnect attempts are throttled to at most one per 5-second window —
any reconnect trigger inside the cool-down window since the last recorded
attempt performs no connect call; a disconnect-triggered reconnect within 5
seconds of a previous attempt performs no connect call; once 5 seconds have
elapsed since the last attempt, a new connect attempt is made.  (Stated over
the spec-modelled `reconnect`/`onDisconnected`, since the repository code for
them is not under src/.) -/
theorem c3_reconnect_throttled :
    (∀ (s : StoreState) (now : Nat) (o : Except String Unit),
        now - s.lastConnectionAttempt < THROTTLE_WINDOW_MS →
        (reconnect s now o).attempted = false) ∧
    (∀ (s : StoreState) (t1 t2 : Nat) (o1 o2 : Except String Unit),
        (onDisconnected s t1 o1).attempted = true →
        t2 - t1 < THROTTLE_WINDOW_MS →
        (onDisconnected (onDisconnected s t1 o1).state t2 o2).attempted = false) ∧
    (∀ (s : StoreState) (t1 t2 : Nat) (o1 o2 : Except String Unit),
        (onDisconnected s t1 o1).attempted = true →
        THROTTLE_WINDOW_MS ≤ t2 - t1 →
        (onDisconnected (onDisconnected s t1 o1).state t2 o2).attempted = true) := by
  have skip : ∀ (s : StoreState) (now : Nat) (o : Except String Unit),
      now - s.lastConnectionAttempt < THROTTLE_WINDOW_MS →
      (reconnect s now o).attempted = false := by
    intro s now o h
    unfold reconnect
    by_cases hc : s.isConnected = true
    · rw [if_pos hc]
    · rw [if_neg hc, if_pos h]
  refine ⟨skip, ?_, ?_⟩
  · intro s t1 t2 o1 o2 h1 h2
    unfold onDisconnected at h1 ⊢
    have hl := reconnect_attempted_last _ _ _ h1
    apply skip
    simpa [hl] using h2
  · intro s t1 t2 o1 o2 h1 h2
    unfold onDisconnected at h1 ⊢
    have hl := reconnect_attempted_last _ _ _ h1
    set s1 := (reconnect { s with isConnected := false } t1 o1).state with hs1
    unfold reconnect
    rw [if_neg (by simp), if_neg (by simp [hl]; omega)]
    cases o2 <;> rfl

/-- C3, witness: at 3000 ms after an attempt at 0 the trigger is skipped; a
second disconnect at 8000 ms after an attempt at 6000 ms is skipped; a
disconnect at 11001 ms, more than 5 s after the attempt at 6000 ms, performs a
new connect call. -/
theorem c3_reconnect_throttled_witness :
    ((reconnect
        { tableName := "user_session", lastConnectionAttempt := 0,
          hasConnected := false, isConnected := false }
        3000 (Except.ok ())).attempted = false) ∧
    ((onDisconnected
        (onDisconnected
          { tableName := "user_session", lastConnectionAttempt := 0,
            hasConnected := false, isConnected := false }
          6000 (Except.error "dropped")).state
        8000 (Except.error "dropped")).attempted = false) ∧
    ((onDisconnected
        (onDisconnected
          { tableName := "user_session", lastConnectionAttempt := 0,
            hasConnected := false, isConnected := false }
          6000 (Except.error "dropped")).state
        11001 (Except.ok ())).attempted = true) :=
  ⟨c3_reconnect_throttled.1 _ 3000 _ (by decide),
   c3_reconnect_throttled.2.1 _ 6000 8000 _ _ (by decide) (by decide),
   c3_reconnect_throttled.2.2 _ 6000 11001 _ _ (by decide) (by decide)⟩

/-- C4, counterexample: the claim says every data operation consults the
connection manager before issuing its request.  A concrete `get` on the
default configuration issues exactly its select — its trace contains no
readiness check and no connect call. -/
theorem c4_counterexample :
    opCallActions optsPlain "user_session" (OpCall.get "abc")
      = [DbAction.select ("user_session", "abc")] ∧
    (opCallActions optsPlain "user_session" (OpCall.get "abc")).any
      isReadinessCheck = false :=
  ⟨rfl, rfl⟩

/-- C4, amended: no session-repository operation consults any connection
manager — every operation issues exactly one database request directly, and
its trace contains no readiness check or connect call. -/
theorem c4_no_readiness_gate (V : Type) (opts : SurrealDBStoreOptions V)
    (tn : String) (c : OpCall V) :
    (opCallActions opts tn c).any isReadinessCheck = false ∧
    (opCallActions opts tn c).length = 1 := by
  cases c with
  | get sid => cases h : opts.customGetter <;> simp [opCallActions, h, isReadinessCheck]
  | set sid sess => cases h : opts.customSetter <;> simp [opCallActions, h, isReadinessCheck]
  | touch sid sess => cases h : opts.customSetter <;> simp [opCallActions, h, isReadinessCheck]
  | destroy sid => simp [opCallActions, isReadinessCheck]
  | length => simp [opCallActions, isReadinessCheck]
  | all => simp [opCallActions, isReadinessCheck]
  | clear => simp [opCallActions, isReadinessCheck]

/-- C5: every operation, on every outcome of its underlying database request,
invokes its completion callback exactly once, and the invocation never carries
both an error argument and a success payload; totality of `runCb` embeds the
fact that no outcome escapes the callback boundary as an exception (every
promise chain ends in a `catch` that feeds the callback). -/
theorem c5_callback_exactly_once (V : Type) (r : OpRun V) :
    ∃ inv : Invocation V, runCb r = [inv] ∧
      (inv.any isErrArg && inv.any isSuccessArg) = false := by
  cases r <;> rename_i o <;> cases o <;> exact ⟨_, rfl, rfl⟩

/-- C6: on success `length` passes the integer count as the sole, first
callback argument — the same slot that carries the error value on failure, and
with the same shape (one invocation of one argument in both cases), so a
caller cannot structurally tell a success count from an error. -/
theorem c6_length_count_in_error_slot (V : Type) (n : Nat) (e : String) :
    lengthCb (V := V) (Except.ok n) = [[CbArg.count n]] ∧
    lengthCb (V := V) (Except.error e) = [[CbArg.err e]] ∧
    (lengthCb (V := V) (Except.ok n)).map List.length
      = (lengthCb (V := V) (Except.error e)).map List.length :=
  ⟨rfl, rfl, rfl⟩

/-- C7: with no custom hooks and a stable connection (the requests resolve
against the database model), `set` followed by `get` delivers to the `get`
callback exactly the written payload, and a second identical `set` leaves the
database equal to the result of a single `set`. -/
theorem c7_set_get_roundtrip (V : Type) (opts : SurrealDBStoreOptions V)
    (tn : String) (db : Db V) (sid : SessionId) (v : V)
    (hg : opts.customGetter = none) (hs : opts.customSetter = none) :
    getRun opts tn (setRun opts tn db sid v).1 sid
      = [[CbArg.null, CbArg.record (some v)]] ∧
    (setRun opts tn (setRun opts tn db sid v).1 sid v).1
      = (setRun opts tn db sid v).1 := by
  constructor
  · simp [getRun, setRun, hg, hs, getCb, dbSelect_dbUpsert_self]
  · simp [setRun, hs, dbUpsert_idem]

/-- C7, witness: writing payload `42` under id `sid1` into the empty table and
reading it back delivers `cb(null, 42)`, and repeating the same write changes
nothing. -/
theorem c7_set_get_roundtrip_witness :
    getRun optsPlain "user_session"
        (setRun optsPlain "user_session" [] "sid1" 42).1 "sid1"
      = [[CbArg.null, CbArg.record (some 42)]] ∧
    (setRun optsPlain "user_session"
        (setRun optsPlain "user_session" [] "sid1" 42).1 "sid1" 42).1
      = (setRun optsPlain "user_session" [] "sid1" 42).1 :=
  c7_set_get_roundtrip Nat optsPlain "user_session" [] "sid1" 42 rfl rfl

/-- C8: `hasConnected` starts `false`, every source transition on the store
state either preserves it or sets it to `true`, and no transition resets it
from `true` to `false`. -/
theorem c8_hasConnected_monotonic (V : Type) (opts : SurrealDBStoreOptions V) :
    (initState opts).hasConnected = false ∧
    (∀ (s : StoreState) (st : StoreStep),
        s.hasConnected = true → (stepState s st).hasConnected = true) ∧
    (∀ (s : StoreState) (st : StoreStep),
        (stepState s st).hasConnected = true ∨
        (stepState s st).hasConnected = s.hasConnected) := by
  refine ⟨rfl, ?_, ?_⟩
  · intro s st h
    cases st with
    | connectAttempt o => cases o <;> rfl
    | constructorResolved => rfl
    | dataOp => exact h
  · intro s st
    cases st with
    | connectAttempt o => cases o <;> exact Or.inl rfl
    | constructorResolved => exact Or.inl rfl
    | dataOp => exact Or.inr rfl

/-- C8, witness: a `dataOp` step from a state with `hasConnected = true`
leaves it `true`. -/
theorem c8_hasConnected_monotonic_witness :
    (stepState
        { tableName := "user_session", lastConnectionAttempt := 0,
          hasConnected := true, isConnected := false }
        StoreStep.dataOp).hasConnected = true :=
  (c8_hasConnected_monotonic Nat optsPlain).2.1 _ StoreStep.dataOp rfl

/-- C9: `touch(sid, session, cb)` is behaviourally identical to
`set(sid, session, cb)` — same database effect and callback invocations on the
database model, same issued request, same callback behaviour on every
outcome. -/
theorem c9_touch_equals_set (V : Type) (opts : SurrealDBStoreOptions V)
    (tn : String) (db : Db V) (sid : SessionId) (sess : V)
    (o : Except String V) :
    touchRun opts tn db sid sess = setRun opts tn db sid sess ∧
    opCallActions opts tn (OpCall.touch sid sess)
      = opCallActions opts tn (OpCall.set sid sess) ∧
    runCb (OpRun.touch o) = runCb (OpRun.set o) :=
  ⟨rfl, rfl, rfl⟩

/-- C10: the sweeper defaults to a 10-minute (600000 ms) interval when none is
configured; each tick issues exactly the single parameterized bulk delete
bound to the configured table; the delete keeps a record exactly when its
`expires` is absent or not earlier than now (so it removes precisely the
expired records); a failed tick logs an error; and every scheduled tick issues
its request regardless of the outcomes of the other ticks. -/
theorem c10_sweeper (V : Type) (opts : SurrealDBStoreOptions V) :
    (opts.autoSweepExpired = true → opts.autoSweepIntervalMs = none →
        sweepSchedule opts = some 600000) ∧
    (∀ tn : String, sweepTickActions (V := V) tn
        = [DbAction.query "DELETE type::table($table) WHERE expires < time::now()" (some tn)]) ∧
    (∀ (db : List (SessionId × SweepRecord V)) (now : Nat)
        (r : SessionId × SweepRecord V),
        r ∈ sweepDelete db now ↔
          r ∈ db ∧ ∀ t, r.2.expires = some t → now ≤ t) ∧
    (∀ (tn e : String), sweepTickLogs tn (Except.error e)
        = [LogEvent.error ("SurrealDBStore: Failed to sweep expired sessions: " ++ e)]) ∧
    (∀ (tn : String) (outcomes : List (Except String Unit)),
        (sweepScheduleActions (V := V) tn outcomes).length = outcomes.length) := by
  refine ⟨?_, fun tn => rfl, ?_, fun tn e => rfl, ?_⟩
  · intro h1 h2
    simp [sweepSchedule, h1, h2]
  · intro db now r
    simp only [sweepDelete, List.mem_filter]
    constructor
    · rintro ⟨hmem, hkeep⟩
      refine ⟨hmem, ?_⟩
      intro t ht
      rw [ht] at hkeep
      simpa using hkeep
    · rintro ⟨hmem, hkeep⟩
      refine ⟨hmem, ?_⟩
      cases hexp : r.2.expires with
      | none => simp [hexp]
      | some t =>
          simp only [hexp, decide_eq_true_eq]
          exact hkeep t hexp
  · intro tn outcomes
    induction outcomes with
    | nil => rfl
    | cons hd tl ih =>
        simp only [sweepScheduleActions, List.map_cons, List.flatten_cons,
          List.length_append, List.length_cons] at *
        simp [sweepTickActions, ih]
        omega

/-- C10, witness: with the sweeper enabled and no interval configured, the
registered interval is 600000 ms. -/
theorem c10_sweeper_witness : sweepSchedule optsSweep = some 600000 :=
  (c10_sweeper Nat optsSweep).1 rfl rfl
